import Mathlib

/-!
Verification of the homework-status polling bot (`homework.py`).

The program is embedded shallowly:

* Decoded JSON values (what `response.json()` yields and what the handlers
  receive) are modelled by `PyVal`.  Python's `bool` is a subclass of `int`,
  so `PyVal.isInt` is true on booleans as well.
* Python exceptions raised by the program are modelled by `PyError`;
  fallible functions return `Except PyError _` or thread an
  `Option PyError` together with the partial side effects performed before
  the raise.
* The Telegram `Bot` collaborator is an oracle `sendFails` saying, for a
  message text, whether `bot.send_message` raises a `TelegramError`
  (`some e` = raises with text `e`) or succeeds (`none`).
* One pass of the `while True:` body of `main` is `iteration`; its state
  (`IterState`) carries the poll cursor `timestamp`, the global
  `LAST_ERROR_MESSAGE`, and the chronological list of messages successfully
  delivered to the chat.  The second component of `iteration`'s result is
  the exception escaping the loop body, if any.
-/

namespace Homework

/-- A decoded JSON value as Python sees it (`bool` kept separate from `int`
because Python distinguishes them, but `isInt` below reflects that `bool`
is a subclass of `int`). -/
inductive PyVal where
  | int (n : Int)
  | bool (b : Bool)
  | str (s : String)
  | none
  | list (xs : List PyVal)
  | dict (kvs : List (String × PyVal))

/-- Python `isinstance(v, int)`; true on booleans because `bool` is a
subclass of `int`. -/
def PyVal.isInt : PyVal → Bool
  | .int _ => true
  | .bool _ => true
  | _ => false

/-- Python `isinstance(v, list)`. -/
def PyVal.isList : PyVal → Bool
  | .list _ => true
  | _ => false

/-- Python `isinstance(v, dict)`. -/
def PyVal.isDict : PyVal → Bool
  | .dict _ => true
  | _ => false

/-- Python `str(v)`.  Only returned for scalar values in any reachable
error or message path of this program; the renderings for containers are
placeholders (the program never formats a container: `parse_status`
raises on container statuses before formatting them). -/
def pyStrOf : PyVal → String
  | .int n => toString n
  | .bool b => if b then "True" else "False"
  | .str s => s
  | .none => "None"
  | .list _ => "[...]"
  | .dict _ => "\x7b...\x7d"

/-- Python `d.get(k)`: the stored value, or `None` when the key is absent.
(A key stored with value `null` and an absent key are indistinguishable
through `get`, exactly as in Python.) -/
def dictGet (kvs : List (String × PyVal)) (k : String) : PyVal :=
  match kvs.lookup k with
  | Option.none => PyVal.none
  | Option.some v => v

/-- Python `v.get(k)` on a value already validated to be a dict.
`check_response` guarantees the receiver is a dict on every path where
`main` calls `.get`, so the non-dict fallback is unreachable. -/
def pyGet (v : PyVal) (k : String) : PyVal :=
  match v with
  | .dict kvs => dictGet kvs k
  | _ => PyVal.none

/-- The list stored in a value already validated by `check_response` to be
a Python list; the fallback is unreachable in `main`. -/
def pyToList : PyVal → List PyVal
  | .list xs => xs
  | _ => []

/-- The exceptions the program raises or catches: `KeyError`, `TypeError`,
the custom `NotAvailableAPI`, `telegram.error.TelegramError`, and the
`AttributeError` from calling `.get` on a non-dict record. -/
inductive PyError where
  | keyError (msg : String)
  | typeError (msg : String)
  | notAvailableAPI (msg : String)
  | telegramError (msg : String)
  | attributeError (msg : String)
  deriving DecidableEq

/-- Python `str(error)` as used in the `f'Сбой в работе программы: {error}'`
handlers of `main`: `str` of a one-argument `KeyError` is the `repr` of its
argument (surrounded by single quotes); for the other exception classes it
is the message itself. -/
def pyStrErr : PyError → String
  | .keyError m => "\x27" ++ m ++ "\x27"
  | .typeError m => m
  | .notAvailableAPI m => m
  | .telegramError m => m
  | .attributeError m => m

/-- `ENDPOINT` constant of the program. -/
def ENDPOINT : String := "https://practicum.yandex.ru/api/user_api/homework_statuses/"

/-- `HOMEWORK_VERDICTS` constant of the program (the VerdictTable). -/
def HOMEWORK_VERDICTS : List (String × String) :=
  [("approved", "Работа проверена: ревьюеру всё понравилось. Ура!"),
   ("reviewing", "Работа взята на проверку ревьюером."),
   ("rejected", "Работа проверена: у ревьюера есть замечания.")]

/-- The telegram `Bot` collaborator: for a message text, `sendFails m = some e`
means `bot.send_message` raises a `TelegramError` with text `e`;
`none` means the send succeeds. -/
structure Bot where
  sendFails : String → Option String

/-- `send_message`: attempts the Telegram send; on success appends the
message to the delivered list, on `TelegramError` re-raises the wrapped
error (nothing delivered). -/
def send_message (bot : Bot) (sent : List String) (message : String) :
    Except PyError (List String) :=
  match bot.sendFails message with
  | Option.some err =>
      .error (.telegramError ("Ошибка при отправке сообщения в Telegram: " ++ err))
  | Option.none => .ok (sent ++ [message])

/-- The outcome of the `requests.get` call in `get_api_answer`: either the
transport raised `requests.RequestException`, or an HTTP response arrived
with a status code and a decoded JSON body. -/
inductive FetchResult where
  | transportError (msg : String)
  | response (statusCode : Int) (body : PyVal)

/-- `get_api_answer`: wraps a transport failure in `NotAvailableAPI`,
raises `NotAvailableAPI` naming the endpoint and status code on any
non-200 status, and otherwise returns the decoded body. -/
def get_api_answer (fetch : FetchResult) : Except PyError PyVal :=
  match fetch with
  | .transportError e =>
      .error (.notAvailableAPI ("Ошибка при запросе к API: " ++ e))
  | .response code body =>
      if code ≠ 200 then
        .error (.notAvailableAPI
          ("Эндпоинт " ++ ENDPOINT ++ " недоступен. Код ответа API: " ++ toString code))
      else .ok body

/-- `check_response`: shape validation of the decoded API response, with
the checks in the order of the source (`homeworks` membership, `homeworks`
type, `current_date` membership, `current_date` type, and the dict check of
the first element when `homeworks` is non-empty). -/
def check_response (response : PyVal) : Except PyError Unit :=
  match response with
  | .dict kvs =>
    match kvs.lookup "homeworks" with
    | Option.none => .error (.keyError "Ключ \"homeworks\" отсутствует в ответе API")
    | Option.some hws =>
      if hws.isList = false then
        .error (.typeError "Значение ключа \"homeworks\" из ответа API не является типом list")
      else
        match kvs.lookup "current_date" with
        | Option.none => .error (.keyError "Ключ \"current_date\" отсутствует в ответе API")
        | Option.some cd =>
          if cd.isInt = false then
            .error (.typeError "Значение ключа \"current_date\" из ответа API не является типом int")
          else
            match hws with
            | .list (h :: _) =>
                if h.isDict = false then
                  .error (.typeError "Информация о ДЗ не является типом <class \x27dict\x27>")
                else .ok ()
            | _ => .ok ()
  | _ => .error (.typeError "Ответ API не является JSON структурой")

/-- `HOMEWORK_VERDICTS.get(status)` where `status` is an arbitrary decoded
value: a string key is looked up; an unhashable key (a list or dict) makes
the lookup itself raise `TypeError`; any other hashable non-string key is
simply absent from the str-keyed table. -/
def verdictGet : PyVal → Except PyError (Option String)
  | .str s => .ok (HOMEWORK_VERDICTS.lookup s)
  | .list _ => .error (.typeError "unhashable type: \x27list\x27")
  | .dict _ => .error (.typeError "unhashable type: \x27dict\x27")
  | _ => .ok Option.none

/-- `parse_status`: extracts `homework_name` and `status` via `.get`
(absent and `null` both give `None`), raises `KeyError` in the source's
order, looks the status up in `HOMEWORK_VERDICTS`, and on success returns
the formatted sentence.  Calling `.get` on a non-dict record raises
`AttributeError` (caught by the generic handler in `main`). -/
def parse_status (homework : PyVal) : Except PyError String :=
  match homework with
  | .dict kvs =>
    let homework_name := dictGet kvs "homework_name"
    match homework_name with
    | .none => .error (.keyError "Ответ API не содержит информацию об имени домашнего задания")
    | _ =>
      let status := dictGet kvs "status"
      match status with
      | .none => .error (.keyError "Ответ API не содержит информацию о статусе домашней работы")
      | _ =>
        match verdictGet status with
        | .error e => .error e
        | .ok Option.none =>
            .error (.keyError
              ("В ответе от API получен неожиданный статус домашнего задания - " ++ pyStrOf status))
        | .ok (Option.some verdict) =>
            .ok ("Изменился статус проверки работы \"" ++ pyStrOf homework_name ++ "\". " ++ verdict)
  | _ => .error (.attributeError "object has no attribute \x27get\x27")

/-- `send_error_message`: compares against `LAST_ERROR_MESSAGE`; when the
message differs it sends and, only if the send returned, updates the
global.  Returns the (new last-error, new delivered list) as they stand
when control leaves the function, plus the exception if the send raised
(in which case both are unchanged, since the assignment is never reached). -/
def send_error_message (bot : Bot) (lastError : String) (sent : List String)
    (message : String) : (String × List String) × Option PyError :=
  if message ≠ lastError then
    match send_message bot sent message with
    | .error e => ((lastError, sent), Option.some e)
    | .ok sent' => ((message, sent'), Option.none)
  else ((lastError, sent), Option.none)

/-- The mutable state carried across iterations of the polling loop:
the cursor `timestamp` (initialized to an `int`, but assigned whatever
`current_date` holds), the global `LAST_ERROR_MESSAGE`, and the messages
successfully delivered to the chat so far (in order). -/
structure IterState where
  timestamp : PyVal
  lastError : String
  sent : List String

/-- The `for hw in homeworks:` loop of `main`: each record is translated by
`parse_status` and sent by `send_message`; the first failure aborts the
remaining records, keeping the effects performed so far. -/
def forLoop (bot : Bot) (st : IterState) : List PyVal → IterState × Option PyError
  | [] => (st, Option.none)
  | hw :: rest =>
    match parse_status hw with
    | .error e => (st, Option.some e)
    | .ok msg =>
      match send_message bot st.sent msg with
      | .error e => (st, Option.some e)
      | .ok sent' => forLoop bot { st with sent := sent' } rest

/-- The `try:` body of one iteration of `main`: fetch, validate, read
`homeworks`, advance `timestamp` to `current_date` (this assignment
precedes the record loop in the source), then translate-and-send each
record.  Returns the state as it stands when the body finishes or raises,
plus the raised exception if any. -/
def tryBody (bot : Bot) (fetch : FetchResult) (st : IterState) :
    IterState × Option PyError :=
  match get_api_answer fetch with
  | .error e => (st, Option.some e)
  | .ok api_response =>
    match check_response api_response with
    | .error e => (st, Option.some e)
    | .ok _ =>
      let homeworks := pyGet api_response "homeworks"
      let st' := { st with timestamp := pyGet api_response "current_date" }
      forLoop bot st' (pyToList homeworks)

/-- One full pass of the `while True:` body of `main`: the `try` body, then
either the `else:` clause (reset `LAST_ERROR_MESSAGE` to the empty string)
or the uniform exception handler (format the message, log, and call
`send_error_message`).  Every handler has the same body, so the catch is
modelled uniformly.  The second component is the exception escaping the
loop body: `none` normally, `some _` only when `send_error_message`
itself raises inside a handler (the following `except` clauses do not
cover exceptions raised in a handler, so it propagates out of the loop). -/
def iteration (bot : Bot) (fetch : FetchResult) (st : IterState) :
    IterState × Option PyError :=
  let p := tryBody bot fetch st
  match p.2 with
  | Option.none => ({ p.1 with lastError := "" }, Option.none)
  | Option.some e =>
    let message := "Сбой в работе программы: " ++ pyStrErr e
    let r := send_error_message bot p.1.lastError p.1.sent message
    ({ p.1 with lastError := r.1.1, sent := r.1.2 }, r.2)

/-! ## Helper lemmas -/

/-- The record loop never touches the cursor. -/
theorem forLoop_timestamp (bot : Bot) (st : IterState) (hws : List PyVal) :
    (forLoop bot st hws).1.timestamp = st.timestamp := by
  induction hws generalizing st with
  | nil => rfl
  | cons hw rest ih =>
    simp only [forLoop]
    split
    · rfl
    · split
      · rfl
      · exact ih _

/-- The record loop never touches the last-error global. -/
theorem forLoop_lastError (bot : Bot) (st : IterState) (hws : List PyVal) :
    (forLoop bot st hws).1.lastError = st.lastError := by
  induction hws generalizing st with
  | nil => rfl
  | cons hw rest ih =>
    simp only [forLoop]
    split
    · rfl
    · split
      · rfl
      · exact ih _

/-- Neither the `else:` clause nor the exception handler of `main` touches
the cursor, so the cursor after a full pass is the cursor as the `try`
body left it. -/
theorem iteration_timestamp (bot : Bot) (fetch : FetchResult) (st : IterState) :
    (iteration bot fetch st).1.timestamp = (tryBody bot fetch st).1.timestamp := by
  simp only [iteration]
  cases (tryBody bot fetch st).2 <;> rfl

/-- The exception escaping a pass of the loop body is exactly the
exception of the handler's `send_error_message` call, when the `try` body
raised. -/
theorem iteration_escape (bot : Bot) (fetch : FetchResult) (st : IterState) :
    (iteration bot fetch st).2 =
      (match (tryBody bot fetch st).2 with
       | Option.none => Option.none
       | Option.some e =>
         (send_error_message bot (tryBody bot fetch st).1.lastError
           (tryBody bot fetch st).1.sent
           ("Сбой в работе программы: " ++ pyStrErr e)).2) := by
  simp only [iteration]
  cases (tryBody bot fetch st).2 <;> rfl

/-- A `send_error_message` call either returns normally or raises the
wrapped `TelegramError` coming from the failing Telegram send. -/
theorem send_error_message_escape (bot : Bot) (lastError : String)
    (sent : List String) (m : String) :
    (send_error_message bot lastError sent m).2 = Option.none ∨
    ∃ e, bot.sendFails m = Option.some e ∧
      (send_error_message bot lastError sent m).2 =
        Option.some (PyError.telegramError
          ("Ошибка при отправке сообщения в Telegram: " ++ e)) := by
  unfold send_error_message send_message
  split
  · cases h : bot.sendFails m with
    | none => left; rfl
    | some err => right; exact ⟨err, rfl, rfl⟩
  · left; rfl

/-! ## Claims -/

/-- C1, amended.  The original claim — the cursor retains its value on any
failure in steps 1–3 and is advanced only on full success — fails: `main`
assigns `timestamp = api_response.get('current_date')` right after
validation, before the translate-and-send loop, so a step-3 failure leaves
the cursor advanced.  The amended statement: on a fetch failure or a
validation failure the cursor retains its pre-iteration value, and once
validation succeeds the cursor is `current_date` of the response,
regardless of whether the translate-and-send of the records then fails. -/
theorem C1_cursor_advance (bot : Bot) (fetch : FetchResult) (st : IterState) :
    (∀ e, get_api_answer fetch = .error e →
      (iteration bot fetch st).1.timestamp = st.timestamp) ∧
    (∀ body e, get_api_answer fetch = .ok body → check_response body = .error e →
      (iteration bot fetch st).1.timestamp = st.timestamp) ∧
    (∀ body, get_api_answer fetch = .ok body → check_response body = .ok () →
      (iteration bot fetch st).1.timestamp = pyGet body "current_date") := by
  refine ⟨fun e he => ?_, fun body e hb hc => ?_, fun body hb hc => ?_⟩ <;>
    rw [iteration_timestamp]
  · simp [tryBody, he]
  · simp [tryBody, hb, hc]
  · simp [tryBody, hb, hc, forLoop_timestamp]

/-- C1, counterexample to the original claim: a 200 response whose single
homework record lacks `homework_name`.  Validation passes (only the first
element's dict-ness is checked), the cursor is advanced to 999, and then
step 3 fails with `KeyError` — an iteration that failed during steps 1–3
yet left the cursor advanced from 100 to 999. -/
theorem C1_counterexample :
    (tryBody ⟨fun _ => Option.none⟩
        (.response 200 (.dict [("homeworks", .list [.dict []]),
          ("current_date", PyVal.int 999)]))
        ⟨PyVal.int 100, "", []⟩).2 =
      Option.some (.keyError
        "Ответ API не содержит информацию об имени домашнего задания") ∧
    (iteration ⟨fun _ => Option.none⟩
        (.response 200 (.dict [("homeworks", .list [.dict []]),
          ("current_date", PyVal.int 999)]))
        ⟨PyVal.int 100, "", []⟩).1.timestamp = PyVal.int 999 ∧
    PyVal.int 999 ≠ PyVal.int 100 := by
  refine ⟨rfl, rfl, fun h => ?_⟩
  injection h with h
  omega

/-- C1, witness for the amended theorem: a transport failure leaves the
cursor at its pre-iteration value 5. -/
theorem C1_witness :
    (iteration ⟨fun _ => Option.none⟩ (.transportError "boom")
      ⟨PyVal.int 5, "", []⟩).1.timestamp = PyVal.int 5 :=
  (C1_cursor_advance ⟨fun _ => Option.none⟩ (.transportError "boom")
    ⟨PyVal.int 5, "", []⟩).1
    (.notAvailableAPI ("Ошибка при запросе к API: " ++ "boom")) rfl

/-- C2, amended.  The original claim — no error raised inside an iteration
ever propagates out of the polling loop — fails: an exception raised inside
an `except` handler is not caught by the following clauses, and the handler
calls `send_error_message`, whose Telegram send can raise.  The amended
statement: a pass of the loop body either completes with no escaping
exception, or the `try` body raised and the only escaping exception is the
`TelegramError` of the failing error-notification send. -/
theorem C2_escape_only_notification (bot : Bot) (fetch : FetchResult)
    (st : IterState) :
    (iteration bot fetch st).2 = Option.none ∨
    ((tryBody bot fetch st).2.isSome = true ∧
      ∃ m, (iteration bot fetch st).2 =
        Option.some (PyError.telegramError
          ("Ошибка при отправке сообщения в Telegram: " ++ m))) := by
  rw [iteration_escape]
  cases h : (tryBody bot fetch st).2 with
  | none => left; rfl
  | some e =>
    rcases send_error_message_escape bot (tryBody bot fetch st).1.lastError
        (tryBody bot fetch st).1.sent
        ("Сбой в работе программы: " ++ pyStrErr e) with hn | ⟨m, _, hm⟩
    · left; exact hn
    · right; exact ⟨rfl, m, hm⟩

/-- C2, counterexample to the original claim: the fetch fails (a transport
error), the handler tries to notify, the Telegram send fails too — and the
resulting `TelegramError` escapes the loop body, terminating the loop. -/
theorem C2_counterexample :
    (iteration ⟨fun _ => Option.some "boom"⟩ (.transportError "net")
        ⟨PyVal.int 0, "", []⟩).2 =
      Option.some (PyError.telegramError
        "Ошибка при отправке сообщения в Telegram: boom") := by
  rfl

/-- C3: `send_error_message` is a no-op when the message equals
`LAST_ERROR_MESSAGE`; when the message differs and the send raises, both
the global and the delivered list are unchanged and the exception is the
wrapped `TelegramError`; only after a send that returned is the global
updated to the new message. -/
theorem C3_notifyError_state (bot : Bot) (lastError : String)
    (sent : List String) (m : String) :
    (m = lastError →
      send_error_message bot lastError sent m = ((lastError, sent), Option.none)) ∧
    (m ≠ lastError → ∀ e, bot.sendFails m = Option.some e →
      send_error_message bot lastError sent m =
        ((lastError, sent), Option.some (.telegramError
          ("Ошибка при отправке сообщения в Telegram: " ++ e)))) ∧
    (m ≠ lastError → bot.sendFails m = Option.none →
      send_error_message bot lastError sent m = ((m, sent ++ [m]), Option.none)) := by
  refine ⟨fun h => ?_, fun h e he => ?_, fun h he => ?_⟩
  · simp [send_error_message, h]
  · simp [send_error_message, send_message, h, he]
  · simp [send_error_message, send_message, h, he]

/-- C3, witness: with a bot whose sends fail, notifying a fresh error
message leaves the global and the delivered list unchanged and raises; a
repeat of the current last error is a silent no-op. -/
theorem C3_witness :
    send_error_message ⟨fun _ => Option.some "boom"⟩ "" [] "err" =
      (("", []), Option.some (.telegramError
        ("Ошибка при отправке сообщения в Telegram: " ++ "boom"))) ∧
    send_error_message ⟨fun _ => Option.some "boom"⟩ "err" [] "err" =
      (("err", []), Option.none) :=
  ⟨(C3_notifyError_state ⟨fun _ => Option.some "boom"⟩ "" [] "err").2.1
      (by decide) "boom" rfl,
   (C3_notifyError_state ⟨fun _ => Option.some "boom"⟩ "err" [] "err").1 rfl⟩

/-- C4: dedup is idempotent.  Starting from a last-error different from
`m1` and an empty delivered list, with a functioning transport: sending
`m1` and then an identical `m2 = m1` delivers exactly one message, while
sending `m1` and then a different `m2 ≠ m1` delivers exactly two. -/
theorem C4_dedup_idempotent (bot : Bot) (last0 m1 m2 : String)
    (h1 : m1 ≠ last0) (hs1 : bot.sendFails m1 = Option.none)
    (hs2 : bot.sendFails m2 = Option.none) :
    (m2 = m1 →
      (send_error_message bot (send_error_message bot last0 [] m1).1.1
        (send_error_message bot last0 [] m1).1.2 m2).1.2 = [m1]) ∧
    (m2 ≠ m1 →
      (send_error_message bot (send_error_message bot last0 [] m1).1.1
        (send_error_message bot last0 [] m1).1.2 m2).1.2 = [m1, m2]) := by
  have e1 : send_error_message bot last0 [] m1 = ((m1, [m1]), Option.none) := by
    simp [send_error_message, send_message, h1, hs1]
  constructor
  · intro h2
    subst h2
    rw [e1]
    simp [send_error_message]
  · intro h2
    rw [e1]
    simp [send_error_message, send_message, h2, hs2]

/-- C4, witness: two identical notifications deliver only `["a"]`; two
different notifications deliver `["a", "b"]`. -/
theorem C4_witness :
    (send_error_message ⟨fun _ => Option.none⟩
      (send_error_message ⟨fun _ => Option.none⟩ "" [] "a").1.1
      (send_error_message ⟨fun _ => Option.none⟩ "" [] "a").1.2 "a").1.2 = ["a"] ∧
    (send_error_message ⟨fun _ => Option.none⟩
      (send_error_message ⟨fun _ => Option.none⟩ "" [] "a").1.1
      (send_error_message ⟨fun _ => Option.none⟩ "" [] "a").1.2 "b").1.2 = ["a", "b"] :=
  ⟨(C4_dedup_idempotent ⟨fun _ => Option.none⟩ "" "a" "a" (by decide) rfl rfl).1 rfl,
   (C4_dedup_idempotent ⟨fun _ => Option.none⟩ "" "a" "b" (by decide) rfl rfl).2 (by decide)⟩

/-- C5: for a record whose `homework_name` is a (non-null) string and
whose status is a key of `HOMEWORK_VERDICTS`, `parse_status` returns
exactly the template sentence with the name and the verbatim verdict. -/
theorem C5_translate_format (kvs : List (String × PyVal)) (name s v : String)
    (hn : dictGet kvs "homework_name" = PyVal.str name)
    (hs : dictGet kvs "status" = PyVal.str s)
    (hv : HOMEWORK_VERDICTS.lookup s = Option.some v) :
    parse_status (.dict kvs) =
      .ok ("Изменился статус проверки работы \"" ++ name ++ "\". " ++ v) := by
  simp [parse_status, hn, hs, verdictGet, hv, pyStrOf]

/-- C5, witness: the record from the spec's end-to-end example. -/
theorem C5_witness :
    parse_status (.dict [("homework_name", PyVal.str "hw1"),
        ("status", PyVal.str "approved")]) =
      .ok ("Изменился статус проверки работы \"" ++ "hw1" ++ "\". " ++
        "Работа проверена: ревьюеру всё понравилось. Ура!") :=
  C5_translate_format _ "hw1" "approved" _ rfl rfl rfl

/-- Reduction of `parse_status` once both `homework_name` and `status`
are known to be non-null: the result is decided by the verdict lookup. -/
theorem parse_status_unfold (kvs : List (String × PyVal))
    (hn : dictGet kvs "homework_name" ≠ PyVal.none)
    (hs : dictGet kvs "status" ≠ PyVal.none) :
    parse_status (.dict kvs) =
      (match verdictGet (dictGet kvs "status") with
       | .error e => .error e
       | .ok Option.none => .error (.keyError
           ("В ответе от API получен неожиданный статус домашнего задания - "
             ++ pyStrOf (dictGet kvs "status")))
       | .ok (Option.some verdict) => .ok
           ("Изменился статус проверки работы \""
             ++ pyStrOf (dictGet kvs "homework_name") ++ "\". " ++ verdict)) := by
  cases hcn : dictGet kvs "homework_name" <;> try (exact absurd hcn hn)
  all_goals cases hcs : dictGet kvs "status" <;> try (exact absurd hcs hs)
  all_goals simp [parse_status, hcn, hcs, verdictGet]

/-- C6, amended.  The original claim — the third and last failure mode of
`translate` is `UnknownStatusError` naming the status, and in every other
case it succeeds — fails for an unhashable status value: looking a list or
a dict up in `HOMEWORK_VERDICTS` raises `TypeError: unhashable type`
before the status can be reported.  Amended: the checks run in the
claimed order (missing/null name, then missing/null status); then the
verdict lookup decides the outcome — a raising lookup (unhashable status)
propagates its `TypeError`, an absent key is the `KeyError` naming
`str(status)`, and a found verdict yields the formatted success. -/
theorem C6_translate_errors (kvs : List (String × PyVal)) :
    (dictGet kvs "homework_name" = PyVal.none →
      parse_status (.dict kvs) = .error (.keyError
        "Ответ API не содержит информацию об имени домашнего задания")) ∧
    (dictGet kvs "homework_name" ≠ PyVal.none →
      (dictGet kvs "status" = PyVal.none →
        parse_status (.dict kvs) = .error (.keyError
          "Ответ API не содержит информацию о статусе домашней работы")) ∧
      (dictGet kvs "status" ≠ PyVal.none →
        (verdictGet (dictGet kvs "status") = .ok Option.none →
          parse_status (.dict kvs) = .error (.keyError
            ("В ответе от API получен неожиданный статус домашнего задания - "
              ++ pyStrOf (dictGet kvs "status")))) ∧
        (∀ e, verdictGet (dictGet kvs "status") = .error e →
          parse_status (.dict kvs) = .error e) ∧
        (∀ v, verdictGet (dictGet kvs "status") = .ok (Option.some v) →
          parse_status (.dict kvs) = .ok
            ("Изменился статус проверки работы \""
              ++ pyStrOf (dictGet kvs "homework_name") ++ "\". " ++ v)))) := by
  refine ⟨fun hn => by simp [parse_status, hn],
    fun hn => ⟨fun hs => ?_, fun hs => ⟨fun hv => ?_, fun e hv => ?_, fun v hv => ?_⟩⟩⟩
  · cases hcn : dictGet kvs "homework_name" <;> try (exact absurd hcn hn)
    all_goals simp [parse_status, hcn, hs]
  all_goals rw [parse_status_unfold kvs hn hs, hv]

/-- C6, counterexample to the original claim: a status equal to the empty
list is not a key of the verdict table, yet `parse_status` fails with the
`TypeError` of the unhashable dict lookup instead of a `KeyError` naming
the status. -/
theorem C6_counterexample :
    parse_status (.dict [("homework_name", PyVal.str "hw1"),
        ("status", PyVal.list [])]) =
      .error (.typeError "unhashable type: \x27list\x27") := rfl

/-- C6, witness: a missing name, a missing status, and an unknown string
status each fail with the matching `KeyError`, in the claimed order. -/
theorem C6_witness :
    parse_status (.dict []) = .error (.keyError
      "Ответ API не содержит информацию об имени домашнего задания") ∧
    parse_status (.dict [("homework_name", PyVal.str "hw")]) =
      .error (.keyError
        "Ответ API не содержит информацию о статусе домашней работы") ∧
    parse_status (.dict [("homework_name", PyVal.str "hw"),
        ("status", PyVal.str "weird")]) =
      .error (.keyError
        ("В ответе от API получен неожиданный статус домашнего задания - "
          ++ pyStrOf (PyVal.str "weird"))) :=
  ⟨(C6_translate_errors []).1 rfl,
   ((C6_translate_errors [("homework_name", PyVal.str "hw")]).2
      (fun h => PyVal.noConfusion h)).1 rfl,
   (((C6_translate_errors [("homework_name", PyVal.str "hw"),
        ("status", PyVal.str "weird")]).2
      (fun h => PyVal.noConfusion h)).2 (fun h => PyVal.noConfusion h)).1 rfl⟩

/-- C7: a non-200 HTTP response makes the fetch fail with exactly one
`NotAvailableAPI` error whose text contains the endpoint URL and the
status code, and the iteration leaves the cursor unchanged. -/
theorem C7_non200_api_unavailable (code : Int) (body : PyVal) (bot : Bot)
    (st : IterState) (h : code ≠ 200) :
    get_api_answer (.response code body) = .error (.notAvailableAPI
      ("Эндпоинт " ++ ENDPOINT ++ " недоступен. Код ответа API: "
        ++ toString code)) ∧
    (∃ a b', ("Эндпоинт " ++ ENDPOINT ++ " недоступен. Код ответа API: "
      ++ toString code) = a ++ ENDPOINT ++ b') ∧
    (∃ c d, ("Эндпоинт " ++ ENDPOINT ++ " недоступен. Код ответа API: "
      ++ toString code) = c ++ toString code ++ d) ∧
    (iteration bot (.response code body) st).1.timestamp = st.timestamp := by
  refine ⟨by simp [get_api_answer, h],
    ⟨"Эндпоинт ", " недоступен. Код ответа API: " ++ toString code, ?_⟩,
    ⟨"Эндпоинт " ++ ENDPOINT ++ " недоступен. Код ответа API: ", "", ?_⟩, ?_⟩
  · simp [String.append_assoc]
  · simp
  · rw [iteration_timestamp]
    simp [tryBody, get_api_answer, h]

/-- C7, witness: a 503 response at cursor 7 raises the endpoint error and
keeps the cursor at 7. -/
theorem C7_witness :
    get_api_answer (.response 503 (PyVal.dict [])) = .error (.notAvailableAPI
      ("Эндпоинт " ++ ENDPOINT ++ " недоступен. Код ответа API: "
        ++ toString (503 : Int))) ∧
    (iteration ⟨fun _ => Option.none⟩ (.response 503 (PyVal.dict []))
      ⟨PyVal.int 7, "", []⟩).1.timestamp = PyVal.int 7 :=
  ⟨(C7_non200_api_unavailable 503 (PyVal.dict []) ⟨fun _ => Option.none⟩
      ⟨PyVal.int 7, "", []⟩ (by decide)).1,
   (C7_non200_api_unavailable 503 (PyVal.dict []) ⟨fun _ => Option.none⟩
      ⟨PyVal.int 7, "", []⟩ (by decide)).2.2.2⟩

/-- C8, amended.  The original claim — every response mapping lacking
`current_date` is rejected with a `MissingFieldError` naming the field —
fails on the error class: `check_response` checks `homeworks` first, so a
missing or non-list `homeworks` is reported instead.  Amended: such a
response is always rejected by validation and the whole `try` body leaves
the state untouched (nothing translated, nothing sent, cursor kept), and
the error is the `KeyError` naming `current_date` whenever the
`homeworks` field is present and is a list. -/
theorem C8_missing_current_date (kvs : List (String × PyVal)) (bot : Bot)
    (st : IterState) (h : kvs.lookup "current_date" = Option.none) :
    (∃ e, check_response (.dict kvs) = .error e) ∧
    (tryBody bot (.response 200 (.dict kvs)) st).1 = st ∧
    (iteration bot (.response 200 (.dict kvs)) st).1.timestamp = st.timestamp ∧
    (∀ v, kvs.lookup "homeworks" = Option.some v → v.isList = true →
      check_response (.dict kvs) = .error (.keyError
        "Ключ \"current_date\" отсутствует в ответе API")) := by
  have hc : ∃ e, check_response (.dict kvs) = .error e := by
    simp only [check_response]
    cases hl : kvs.lookup "homeworks" with
    | none => exact ⟨_, rfl⟩
    | some v =>
      dsimp only
      cases hv : v.isList with
      | false => exact ⟨_, rfl⟩
      | true => rw [h]; exact ⟨_, rfl⟩
  obtain ⟨e, hce⟩ := hc
  refine ⟨⟨e, hce⟩, ?_, ?_, fun v hl hv => ?_⟩
  · simp [tryBody, get_api_answer, hce]
  · rw [iteration_timestamp]
    simp [tryBody, get_api_answer, hce]
  · simp [check_response, hl, hv, h]

/-- C8, counterexample to the original claim: a mapping that lacks
`current_date` but stores a non-list under `homeworks` is rejected with
the `TypeError` about `homeworks` — not a missing-field error naming
`current_date`. -/
theorem C8_counterexample :
    check_response (.dict [("homeworks", PyVal.int 0)]) = .error (.typeError
      "Значение ключа \"homeworks\" из ответа API не является типом list") := rfl

/-- C8, witness: a well-typed `homeworks` with `current_date` absent is
rejected with the `KeyError` naming `current_date` and the cursor stays 3. -/
theorem C8_witness :
    (iteration ⟨fun _ => Option.none⟩
      (.response 200 (.dict [("homeworks", PyVal.list [])]))
      ⟨PyVal.int 3, "", []⟩).1.timestamp = PyVal.int 3 ∧
    check_response (.dict [("homeworks", PyVal.list [])]) = .error (.keyError
      "Ключ \"current_date\" отсутствует в ответе API") :=
  ⟨(C8_missing_current_date [("homeworks", PyVal.list [])]
      ⟨fun _ => Option.none⟩ ⟨PyVal.int 3, "", []⟩ rfl).2.2.1,
   (C8_missing_current_date [("homeworks", PyVal.list [])]
      ⟨fun _ => Option.none⟩ ⟨PyVal.int 3, "", []⟩ rfl).2.2.2
      (PyVal.list []) rfl rfl⟩

/-- C9, amended.  The original claim — validation succeeds for every
mapping with a list `homeworks` and a boolean `current_date` — overlooks
the first-element check: a non-empty `homeworks` whose first element is
not a dict is rejected.  Amended: for a `homeworks` list that is empty or
starts with a dict, a boolean `current_date` passes validation (Python's
`bool` is a subclass of `int`, so `isinstance(current_date, int)` holds)
and the iteration then assigns that boolean to the cursor. -/
theorem C9_bool_current_date (kvs : List (String × PyVal)) (b : Bool)
    (hws : List PyVal) (bot : Bot) (st : IterState)
    (hl : kvs.lookup "homeworks" = Option.some (PyVal.list hws))
    (hfirst : hws = [] ∨ ∃ hd tl, hws = hd :: tl ∧ hd.isDict = true)
    (hcd : kvs.lookup "current_date" = Option.some (PyVal.bool b)) :
    check_response (.dict kvs) = .ok () ∧
    (iteration bot (.response 200 (.dict kvs)) st).1.timestamp = PyVal.bool b := by
  have hck : check_response (.dict kvs) = .ok () := by
    rcases hfirst with rfl | ⟨hd, tl, rfl, hdict⟩
    · simp [check_response, hl, hcd, PyVal.isList, PyVal.isInt]
    · simp [check_response, hl, hcd, PyVal.isList, PyVal.isInt, hdict]
  refine ⟨hck, ?_⟩
  rw [iteration_timestamp]
  simp [tryBody, get_api_answer, hck, forLoop_timestamp, pyGet, dictGet, hcd]

/-- C9, counterexample to the original claim: a list `homeworks` whose
first element is the integer 0, with a boolean `current_date`, is
rejected by validation. -/
theorem C9_counterexample :
    check_response (.dict [("homeworks", PyVal.list [PyVal.int 0]),
        ("current_date", PyVal.bool true)]) =
      .error (.typeError "Информация о ДЗ не является типом <class \x27dict\x27>") := rfl

/-- C9, witness: an empty `homeworks` with `current_date = True` passes
validation and the cursor becomes the boolean `True`. -/
theorem C9_witness :
    check_response (.dict [("homeworks", PyVal.list []),
        ("current_date", PyVal.bool true)]) = .ok () ∧
    (iteration ⟨fun _ => Option.none⟩
      (.response 200 (.dict [("homeworks", PyVal.list []),
        ("current_date", PyVal.bool true)]))
      ⟨PyVal.int 3, "", []⟩).1.timestamp = PyVal.bool true :=
  C9_bool_current_date [("homeworks", PyVal.list []),
      ("current_date", PyVal.bool true)] true []
    ⟨fun _ => Option.none⟩ ⟨PyVal.int 3, "", []⟩ rfl (Or.inl rfl) rfl

/-- C10: a valid response with an empty `homeworks` list is a fully
successful iteration: nothing is sent (the delivered list is unchanged),
the cursor is advanced to `current_date`, the last-error global is reset
to the empty string, and no exception escapes. -/
theorem C10_empty_homeworks (kvs : List (String × PyVal)) (cd : PyVal)
    (bot : Bot) (st : IterState)
    (hl : kvs.lookup "homeworks" = Option.some (PyVal.list []))
    (hcd : kvs.lookup "current_date" = Option.some cd)
    (hint : cd.isInt = true) :
    iteration bot (.response 200 (.dict kvs)) st =
      ({ timestamp := cd, lastError := "", sent := st.sent }, Option.none) := by
  have hck : check_response (.dict kvs) = .ok () := by
    simp [check_response, hl, hcd, PyVal.isList, hint]
  have htb : tryBody bot (.response 200 (.dict kvs)) st =
      ({ timestamp := cd, lastError := st.lastError, sent := st.sent },
        Option.none) := by
    simp [tryBody, get_api_answer, hck, pyGet, dictGet, hl, hcd, pyToList, forLoop]
  simp [iteration, htb]

/-- C10, witness: an empty batch at `current_date` 1700000000, starting
from a stale last error and one already-delivered message: the cursor
advances, the last error resets, nothing new is delivered. -/
theorem C10_witness :
    iteration ⟨fun _ => Option.none⟩
      (.response 200 (.dict [("homeworks", PyVal.list []),
        ("current_date", PyVal.int 1700000000)]))
      ⟨PyVal.int 1, "old", ["m"]⟩ =
      ({ timestamp := PyVal.int 1700000000, lastError := "", sent := ["m"] },
        Option.none) :=
  C10_empty_homeworks [("homeworks", PyVal.list []),
      ("current_date", PyVal.int 1700000000)] (PyVal.int 1700000000)
    ⟨fun _ => Option.none⟩ ⟨PyVal.int 1, "old", ["m"]⟩ rfl rfl rfl

end Homework
